import Mathlib

/-
  Verification development for the sioba library.

  Shallow embedding of the core of `src/sioba/src/sioba`:
    - base.py     : Interface lifecycle state machine, callback dispatch,
                    BufferedInterface, EventsScreen scrollback
    - context.py  : InterfaceContext.fill_missing
    - registry.py : register_interface / list_interfaces
    - echo.py     : EchoInterface
    - function.py : FunctionInterface.receive_from_control state gate

  Conventions of the embedding:
    - Python `bytes` are `List Nat` (one Nat per byte; CR = 13, LF = 10).
    - Callbacks are modelled by an identifier `cid` plus a Boolean `raises`
      telling whether invoking the callback raises an exception.  The Python
      callback sets are modelled as lists in iteration order.
    - Python exceptions escaping a method body are an `Except` error or an
      explicit outcome field.  Almost every method of base.py is decorated
      with `@logger.catch`, which catches any exception escaping the body,
      logs it, and makes the decorated method return None to its caller;
      where a claim depends on this the outcome records both the raise (the
      logged error) and the fact that nothing propagates to the caller.
-/

namespace Sioba

/-- Lifecycle states of an Interface (base.py, class InterfaceState). -/
inductive InterfaceState
  | INITIALIZED
  | STARTED
  | SHUTDOWN
deriving DecidableEq, Repr

/-- Numeric rank of a lifecycle state, for the monotonicity order
INITIALIZED < STARTED < SHUTDOWN. -/
def InterfaceState.rank : InterfaceState → Nat
  | .INITIALIZED => 0
  | .STARTED => 1
  | .SHUTDOWN => 2

/-- Error kinds raised by the interface layer (sioba.errors):
InterfaceNotStarted and TerminalClosedError. -/
inductive SIOErr
  | notStarted
  | terminalClosed
deriving DecidableEq, Repr

/-- A byte value. -/
abbrev Byte := Nat

/-- The transformation `data.replace(b"\r", b"\r\n")` of base.py line 219:
every CR byte (13) is replaced by CR LF (13, 10). -/
def convertEolBytes : List Byte → List Byte
  | [] => []
  | b :: rest =>
      if b = 13 then 13 :: 10 :: convertEolBytes rest
      else b :: convertEolBytes rest

/-- A registered callback: an identity plus whether invoking it raises. -/
structure Callback where
  cid : Nat
  raises : Bool
deriving DecidableEq, Repr

/-- The dispatch loop pattern of base.py (send_to_control lines 222-226,
shutdown lines 174-177, receive_from_control lines 233-236,
on_set_terminal_title_handle lines 251-254):

  for cb in callbacks: res = cb(...); if coroutine: await res

There is no per-callback try/except: invoking the callbacks in iteration
order, the first one that raises lets its exception escape the loop, and the
callbacks after it are never invoked.  Returns the list of cids actually
invoked (the raiser included: it was called and raised during its execution)
and the cid of the raiser if any. -/
def dispatchLoop : List Callback → List Nat × Option Nat
  | [] => ([], none)
  | c :: rest =>
      if c.raises then ([c.cid], some c.cid)
      else
        let r := dispatchLoop rest
        (c.cid :: r.1, r.2)

/-- Result of a dispatching method: the invocations performed (cid together
with the byte payload delivered to it) and, if a callback raised, its cid.
A raised callback exception escapes the method body and is then caught and
logged by the method's own @logger.catch decorator, so the caller of the
method observes a normal return either way. -/
structure DispatchOutcome where
  invoked : List (Nat × List Byte)
  raised : Option Nat
deriving DecidableEq, Repr

/-- State of a base Interface relevant to the dispatch claims: lifecycle
state, effective interface_config.convertEol, and the two callback
collections (on_send_from_xterm and on_receive_from_control), in iteration
order. -/
structure Interface where
  state : InterfaceState
  convertEol : Bool
  send_callbacks : List Callback
  receive_callbacks : List Callback
deriving DecidableEq, Repr

/-- Embedding of Interface.send_to_control (base.py lines 206-226).
Raises InterfaceNotStarted when INITIALIZED, TerminalClosedError when
SHUTDOWN; returns with no dispatch on empty data; otherwise applies the
convertEol replacement and dispatches to every send callback in order
(stopping if one raises).  The @logger.catch decorator on the method
catches any of these raises at the method boundary and logs them. -/
def Interface.send_to_control (i : Interface) (data : List Byte) :
    Except SIOErr DispatchOutcome :=
  if i.state = InterfaceState.INITIALIZED then .error .notStarted
  else if i.state = InterfaceState.SHUTDOWN then .error .terminalClosed
  else if data = [] then .ok ⟨[], none⟩
  else
    let d := if i.convertEol then convertEolBytes data else data
    let r := dispatchLoop i.send_callbacks
    .ok ⟨r.1.map (fun c => (c, d)), r.2⟩

/-- Embedding of Interface.receive_from_control (base.py lines 228-236).
The body performs NO lifecycle-state check: it dispatches the data to every
receive callback in iteration order regardless of state. -/
def Interface.receive_from_control (i : Interface) (data : List Byte) :
    Except SIOErr DispatchOutcome :=
  let r := dispatchLoop i.receive_callbacks
  .ok ⟨r.1.map (fun c => (c, data)), r.2⟩

/-- Outcome of Interface.start: the resulting lifecycle state, whether a
start_interface error was caught and logged by the @logger.catch decorator
of start, and whether any exception propagates to the caller of start(). -/
structure StartResult where
  state : InterfaceState
  hookErrorLogged : Bool
  propagated : Bool
deriving DecidableEq, Repr

/-- Embedding of Interface.start (base.py lines 141-161).  On a state other
than INITIALIZED the call returns immediately.  Otherwise the state is set
to STARTED FIRST (line 158) and only then is start_interface() awaited
(line 159); if start_interface raises, the state therefore stays STARTED,
and the exception is caught and logged by the @logger.catch decorator on
start (line 141), so nothing propagates to the caller.  (The second
`state != INITIALIZED` check at lines 156-157 is dead: no suspension point
separates it from the first.)  `startInterfaceRaises` is the oracle for
whether the subclass hook raises. -/
def Interface.start (s : InterfaceState) (startInterfaceRaises : Bool) :
    StartResult :=
  if s ≠ InterfaceState.INITIALIZED then ⟨s, false, false⟩
  else ⟨InterfaceState.STARTED, startInterfaceRaises, false⟩

/-- Outcome of Interface.shutdown. -/
structure ShutdownResult where
  state : InterfaceState
  hookErrorLogged : Bool
  invoked : List Nat
  raised : Option Nat
deriving DecidableEq, Repr

/-- Embedding of Interface.shutdown (base.py lines 166-177).  On a state
other than STARTED the call returns immediately.  Otherwise
shutdown_interface() is awaited first; if it raises, @logger.catch catches
the error at the method boundary and the state is never set (it stays
STARTED).  On success the state becomes SHUTDOWN and the on_shutdown
callbacks are dispatched with the loop pattern of `dispatchLoop`. -/
def Interface.shutdown (s : InterfaceState) (shutdownInterfaceRaises : Bool)
    (shutdown_callbacks : List Callback) : ShutdownResult :=
  if s ≠ InterfaceState.STARTED then ⟨s, false, [], none⟩
  else if shutdownInterfaceRaises then ⟨s, true, [], none⟩
  else
    let r := dispatchLoop shutdown_callbacks
    ⟨InterfaceState.SHUTDOWN, false, r.1, r.2⟩

/-- Operations on an Interface that could touch the lifecycle state.  Only
start and shutdown assign self.state in base.py; the others read it at
most. -/
inductive Op
  | start (hookRaises : Bool)
  | shutdown (hookRaises : Bool) (cbs : List Callback)
  | send_to_control (data : List Byte)
  | receive_from_control (data : List Byte)
  | set_terminal_title (t : String)
  | update_terminal_metadata (client_id : String)

/-- The lifecycle-state effect of one operation. -/
def stepState (s : InterfaceState) : Op → InterfaceState
  | .start hf => (Interface.start s hf).state
  | .shutdown hf cbs => (Interface.shutdown s hf cbs).state
  | .send_to_control _ => s
  | .receive_from_control _ => s
  | .set_terminal_title _ => s
  | .update_terminal_metadata _ => s

/-- The lifecycle state after a sequence of operations. -/
def runOps (s : InterfaceState) (ops : List Op) : InterfaceState :=
  ops.foldl stepState s

/-- Protocol-level configuration record (base.py, dataclass InterfaceConfig). -/
structure InterfaceConfig where
  rows : Option Int
  cols : Option Int
  encoding : Option String
  convertEol : Option Bool
deriving DecidableEq, Repr

/-- Helper for InterfaceConfig.update: a field is overwritten exactly when
the incoming value is not None. -/
def pickUpdated (incoming old : Option α) : Option α :=
  match incoming with
  | some v => some v
  | none => old

/-- Embedding of InterfaceConfig.update (base.py lines 37-41): every
non-None field of `options` overwrites the corresponding field. -/
def InterfaceConfig.update (c options : InterfaceConfig) : InterfaceConfig :=
  ⟨pickUpdated options.rows c.rows,
   pickUpdated options.cols c.cols,
   pickUpdated options.encoding c.encoding,
   pickUpdated options.convertEol c.convertEol⟩

/-- DEFAULT_CONFIG of base.py lines 47-52. -/
def DEFAULT_CONFIG : InterfaceConfig :=
  ⟨some 24, some 80, some "utf-8", some false⟩

/-- EchoInterface.default_config (echo.py lines 9-11): convertEol = True. -/
def EchoInterface.default_config : InterfaceConfig :=
  ⟨none, none, none, some true⟩

/-- Config merging performed by Interface init (base.py lines 106-110):
start from a copy of DEFAULT_CONFIG, update with the class default_config
if any, then update with the caller-supplied interface_config if any. -/
def Interface.merged_config (default_config : Option InterfaceConfig)
    (interface_config : Option InterfaceConfig) : InterfaceConfig :=
  let c := DEFAULT_CONFIG
  let c := match default_config with
    | some d => c.update d
    | none => c
  match interface_config with
  | some u => c.update u
  | none => c

/-- Truthiness of the configured convertEol as tested by base.py line 218
(`if self.interface_config.convertEol:`): None and False are falsy. -/
def InterfaceConfig.convertEolTruthy (c : InterfaceConfig) : Bool :=
  c.convertEol.getD false

/-- Embedding of EchoInterface.receive_from_control (echo.py lines 13-18):
the received data is passed directly to self.send_to_control. -/
def EchoInterface.receive_from_control (i : Interface) (data : List Byte) :
    Except SIOErr DispatchOutcome :=
  Interface.send_to_control i data

/-- Capture modes of the function interface (function.py, class CaptureMode). -/
inductive CaptureMode
  | DISCARD
  | ECHO
  | INPUT
  | GETPASS
deriving DecidableEq, Repr

/-- Outcome of FunctionInterface.receive_from_control. -/
inductive FnReceiveOutcome
  | raisedNotStarted
  | raisedShutdown
  | processed (mode : CaptureMode) (data : List Byte)
deriving DecidableEq, Repr

/-- Embedding of the state gate of FunctionInterface.receive_from_control
(function.py lines 171-176): InterfaceNotStarted is raised when the state
is INITIALIZED and InterfaceShutdown when SHUTDOWN, before any capture-mode
processing or queue traffic happens.  The capture-mode handling that
follows on STARTED is summarized by `processed` (no claim concerns it). -/
def FunctionInterface.receive_from_control (s : InterfaceState)
    (mode : CaptureMode) (data : List Byte) : FnReceiveOutcome :=
  if s = InterfaceState.INITIALIZED then .raisedNotStarted
  else if s = InterfaceState.SHUTDOWN then .raisedShutdown
  else .processed mode data

/-- Value held by one dataclass field of an InterfaceContext: the UNSET
sentinel, Python None, or a set value (context.py). -/
inductive FieldVal
  | unset
  | null
  | intVal (n : Int)
  | strVal (s : String)
  | boolVal (b : Bool)
deriving DecidableEq, Repr

/-- An InterfaceContext, represented by its dataclass fields in declaration
order (context.py, dataclass InterfaceContext). -/
structure InterfaceContext where
  fields : List (String × FieldVal)
deriving DecidableEq, Repr

/-- Dictionary lookup on a field-name/value association list. -/
def lookupField (kvs : List (String × FieldVal)) (name : String) :
    Option FieldVal :=
  match kvs.find? (fun kv => kv.1 = name) with
  | some kv => some kv.2
  | none => none

/-- Embedding of InterfaceContext.fill_missing (context.py lines 180-209).
The method normalizes `defaults` to a dict and loops over the dataclass
fields, but the entire loop body (lines 194-207) is a triple-quoted string
literal, i.e. commented out: each iteration is a no-op, and the method
returns self with every field unchanged. -/
def InterfaceContext.fill_missing (c : InterfaceContext)
    (defaults : List (String × FieldVal)) : InterfaceContext :=
  let _ := defaults
  c

/-- Behavior documented for fill_missing by its docstring and the spec
(sets only currently-missing fields from non-unset defaults), which is also
exactly what the commented-out loop body of context.py lines 194-207 would
do: for each field present in `defaults`, if the current value is UNSET or
None and the incoming value is not UNSET, the field is set to the incoming
value.  Kept for contrast with the actual no-op `fill_missing`. -/
def InterfaceContext.fill_missing_documented (c : InterfaceContext)
    (defaults : List (String × FieldVal)) : InterfaceContext :=
  ⟨c.fields.map (fun kv =>
    match lookupField defaults kv.1 with
    | none => kv
    | some dv =>
        if (kv.2 = FieldVal.unset ∨ kv.2 = FieldVal.null) ∧
            dv ≠ FieldVal.unset then (kv.1, dv)
        else kv)⟩

/-- Python str.lower character by character (scheme names are ASCII). -/
def lowerStr (s : String) : String :=
  ⟨s.data.map Char.toLower⟩

/-- Embedding of register_interface (registry.py lines 10-24): each scheme
is lowercased; registering a scheme already present in INTERFACE_REGISTRY
raises KeyError, otherwise the scheme is added.  The registry is modelled
by its key list in insertion order. -/
def register_interface (registry : List String) (scheme : String) :
    Except String (List String) :=
  let lower := lowerStr scheme
  if lower ∈ registry then .error lower
  else .ok (registry ++ [lower])

/-- Embedding of list_interfaces (registry.py lines 26-32).  Despite its
docstring ("Returns a dictionary of all registered interfaces"), the body
only queries the entry points of group "sioba.interfaces" and returns their
lowercased names; it never consults INTERFACE_REGISTRY, so in-process
registrations do not appear.  `eps` is the ambient entry-point environment
(the names visible in the "sioba.interfaces" group). -/
def list_interfaces (eps : List String) : List String :=
  eps.map (fun ep => lowerStr ep)

/-- Per-client terminal metadata relevant to size aggregation: the "rows"
and "cols" entries of the client dict, when present. -/
structure ClientData where
  rows : Option Int
  cols : Option Int
deriving DecidableEq, Repr

/-- Python dict.update on a client record: the keys present in the incoming
dict overwrite, the others are kept. -/
def ClientData.updateWith (old incoming : ClientData) : ClientData :=
  ⟨pickUpdated incoming.rows old.rows, pickUpdated incoming.cols old.cols⟩

/-- Embedding of `self.term_clients.setdefault(client_id, {})` followed by
`self.term_clients[client_id].update(data)` (base.py lines 280-281) on an
insertion-ordered dict. -/
def updateClients (cs : List (String × ClientData)) (client_id : String)
    (data : ClientData) : List (String × ClientData) :=
  if cs.any (fun kv => kv.1 = client_id) then
    cs.map (fun kv =>
      if kv.1 = client_id then (kv.1, kv.2.updateWith data) else kv)
  else
    cs ++ [(client_id, ClientData.updateWith ⟨none, none⟩ data)]

/-- Embedding of the minimum loop of base.py lines 285-291 for one field:
starting from None, for each client `data[key]` is read (KeyError when the
key is missing, modelled as the error case) and the accumulator takes the
smaller value.  (The source runs a single loop reading both "rows" and
"cols"; it is split here per field, which errors exactly when the source
loop would raise KeyError on some client.)  `min2` is one accumulation
step: take the incoming value when the accumulator is still None, else the
smaller of the two. -/
def min2 (acc : Option Int) (v : Int) : Option Int :=
  match acc with
  | none => some v
  | some m => if v < m then some v else some m

/-- The traversal of the minimum loop: accumulate with `min2`, failing on a
missing key. -/
def minField : Option Int → List (Option Int) → Except String (Option Int)
  | acc, [] => .ok acc
  | _, none :: _ => .error "KeyError"
  | acc, some v :: rest => minField (min2 acc v) rest

/-- State touched by Interface.update_terminal_metadata: the per-client
dict, the aggregate self.rows / self.cols, and the list of arguments with
which set_terminal_size has been invoked. -/
structure TermAgg where
  term_clients : List (String × ClientData)
  rows : Option Int
  cols : Option Int
  set_terminal_size_calls : List (Option Int × Option Int)
deriving DecidableEq, Repr

/-- Embedding of Interface.update_terminal_metadata (base.py lines
279-295): record the client data, recompute the minimum rows and cols over
all recorded clients, store them in self.rows / self.cols, and invoke
set_terminal_size with exactly that aggregate. -/
def Interface.update_terminal_metadata (st : TermAgg) (client_id : String)
    (data : ClientData) : Except String TermAgg :=
  let cs := updateClients st.term_clients client_id data
  match minField none (cs.map (fun kv => kv.2.rows)),
        minField none (cs.map (fun kv => kv.2.cols)) with
  | .ok mr, .ok mc =>
      .ok ⟨cs, mr, mc, st.set_terminal_size_calls ++ [(mr, mc)]⟩
  | .error e, _ => .error e
  | _, .error e => .error e

/-- State of an EventsScreen relevant to the index claim (base.py, class
EventsScreen, together with the pyte screen fields it uses): the number of
screen lines, the optional scrolling margins, the cursor row, the line
buffer (a map from row index to line content, lines abstracted to a Nat
identifier, with 0 the default empty line a popped row reads back as), the
scrollback list, and its bound. -/
structure EventsScreen where
  lines : Nat
  margins : Option (Nat × Nat)
  cursor_y : Nat
  buffer : Nat → Nat
  scrollback_buffer : List Nat
  scrollback_buffer_size : Nat

/-- The while loop of base.py lines 408-409:
`while len(scrollback) > size: scrollback.pop(0)` (drop oldest first). -/
def evictLoop : List Nat → Nat → List Nat
  | [], _ => []
  | x :: t, size =>
      if (x :: t).length > size then evictLoop t size else x :: t

/-- Embedding of EventsScreen.index (base.py lines 397-415).  With margins
defaulting to (0, lines - 1): when the cursor sits on the bottom line of
the scrolling region, the top line of the region is appended to the
scrollback buffer, the scrollback is trimmed from the front while it
exceeds its bound, and the region scrolls up (the bottom row is popped,
reading back as the default line).  Otherwise the cursor moves down one
line, clamped at the bottom margin (pyte's cursor_down). -/
def EventsScreen.index (s : EventsScreen) : EventsScreen :=
  let m := s.margins.getD (0, s.lines - 1)
  if s.cursor_y = m.2 then
    ⟨s.lines, s.margins, s.cursor_y,
     fun y =>
       if m.1 ≤ y ∧ y < m.2 then s.buffer (y + 1)
       else if y = m.2 then 0
       else s.buffer y,
     evictLoop (s.scrollback_buffer ++ [s.buffer m.1])
       s.scrollback_buffer_size,
     s.scrollback_buffer_size⟩
  else
    ⟨s.lines, s.margins, min m.2 (s.cursor_y + 1), s.buffer,
     s.scrollback_buffer, s.scrollback_buffer_size⟩

/-- State of a BufferedInterface: the base Interface state plus the raw
byte scrollback buffer and its bound (base.py, class BufferedInterface). -/
structure BufferedInterface where
  base : Interface
  scrollback_buffer : List Byte
  scrollback_buffer_size : Nat
deriving DecidableEq, Repr

/-- Embedding of BufferedInterface.send_to_control (base.py lines 350-364):
raise InterfaceNotStarted unless STARTED; return before touching anything
when the data is empty; otherwise append the raw data to the scrollback
buffer, trim it to the last scrollback_buffer_size bytes (via the signed
delta computation of lines 360-362), and delegate to the superclass
dispatch with the original data. -/
def BufferedInterface.send_to_control (i : BufferedInterface)
    (data : List Byte) :
    Except SIOErr (BufferedInterface × DispatchOutcome) :=
  if i.base.state ≠ InterfaceState.STARTED then .error .notStarted
  else if data = [] then .ok (i, ⟨[], none⟩)
  else
    let sb := i.scrollback_buffer ++ data
    let delta : Int := (i.scrollback_buffer_size : Int) - (sb.length : Int)
    let sb := if delta < 0 then sb.drop (-delta).toNat else sb
    match Interface.send_to_control i.base data with
    | .ok r => .ok (⟨i.base, sb, i.scrollback_buffer_size⟩, r)
    | .error e => .error e

/-
  Helper lemmas.
-/

/-- When no callback raises, the dispatch loop invokes every callback in
order and no exception escapes. -/
theorem dispatchLoop_no_raise (cbs : List Callback)
    (h : ∀ c ∈ cbs, c.raises = false) :
    dispatchLoop cbs = (cbs.map Callback.cid, none) := by
  induction cbs with
  | nil => rfl
  | cons c rest ih =>
      have hc : c.raises = false := h c (by simp)
      have hrest := ih (fun x hx => h x (by simp [hx]))
      simp [dispatchLoop, hc, hrest]

/-- When the callbacks before `c` do not raise and `c` does, the dispatch
loop invokes exactly the callbacks up to and including `c`, the exception
of `c` escapes the loop, and the callbacks after `c` are never invoked. -/
theorem dispatchLoop_raiser (pre post : List Callback) (c : Callback)
    (hpre : ∀ p ∈ pre, p.raises = false) (hc : c.raises = true) :
    dispatchLoop (pre ++ c :: post) =
      (pre.map Callback.cid ++ [c.cid], some c.cid) := by
  induction pre with
  | nil => simp [dispatchLoop, hc]
  | cons p rest ih =>
      have hp : p.raises = false := hpre p (by simp)
      have hrest := ih (fun x hx => hpre x (by simp [hx]))
      simp [dispatchLoop, hp, hrest]

/-- Every single operation moves the lifecycle state forward in rank. -/
theorem rank_le_stepState (s : InterfaceState) (op : Op) :
    s.rank ≤ (stepState s op).rank := by
  cases op with
  | start hf => cases s <;> cases hf <;> decide
  | shutdown hf cbs =>
      cases s <;> cases hf <;>
        simp [stepState, Interface.shutdown, InterfaceState.rank]
  | send_to_control data => simp [stepState]
  | receive_from_control data => simp [stepState]
  | set_terminal_title t => simp [stepState]
  | update_terminal_metadata c => simp [stepState]

/-- The lifecycle state rank is monotone along any operation sequence. -/
theorem rank_le_runOps (s : InterfaceState) (ops : List Op) :
    s.rank ≤ (runOps s ops).rank := by
  induction ops generalizing s with
  | nil => simp [runOps]
  | cons op rest ih =>
      calc s.rank ≤ (stepState s op).rank := rank_le_stepState s op
        _ ≤ (runOps (stepState s op) rest).rank := ih (stepState s op)
        _ = (runOps s (op :: rest)).rank := by simp [runOps]

/-- Discriminator for the start operation. -/
def Op.isStart : Op → Bool
  | .start _ => true
  | _ => false

/-- Discriminator for the shutdown operation. -/
def Op.isShutdown : Op → Bool
  | .shutdown _ _ => true
  | _ => false

/-- Single-step transition characterization: an operation either leaves the
state unchanged, or is start moving INITIALIZED to STARTED, or is shutdown
moving STARTED to SHUTDOWN. -/
theorem stepState_characterization (s : InterfaceState) (op : Op) :
    stepState s op = s ∨
    (s = InterfaceState.INITIALIZED ∧
      stepState s op = InterfaceState.STARTED ∧ op.isStart = true) ∨
    (s = InterfaceState.STARTED ∧
      stepState s op = InterfaceState.SHUTDOWN ∧ op.isShutdown = true) := by
  cases op with
  | start hf => cases s <;> cases hf <;> simp [stepState, Interface.start, Op.isStart]
  | shutdown hf cbs =>
      cases s <;> cases hf <;>
        simp [stepState, Interface.shutdown, Op.isShutdown]
  | send_to_control data => exact Or.inl rfl
  | receive_from_control data => exact Or.inl rfl
  | set_terminal_title t => exact Or.inl rfl
  | update_terminal_metadata c => exact Or.inl rfl

/-- The eviction loop drops exactly the oldest entries beyond the bound. -/
theorem evictLoop_eq_drop (l : List Nat) (n : Nat) :
    evictLoop l n = l.drop (l.length - n) := by
  induction l with
  | nil => simp [evictLoop]
  | cons x t ih =>
      by_cases h : (x :: t).length > n
      · have hlen : t.length ≥ n := by
          have := h
          simp only [List.length_cons] at this
          omega
        have hstep : (x :: t).length - n = (t.length - n) + 1 := by
          simp only [List.length_cons]
          omega
        rw [evictLoop, if_pos h, hstep, ih, List.drop_succ_cons]
      · have hlen : (x :: t).length - n = 0 := by omega
        rw [evictLoop, if_neg h, hlen, List.drop_zero]

/-- A successful minimum-loop run implies every traversed value was
present (no KeyError): the list is a list of some-values. -/
theorem minField_shape : ∀ (xs : List (Option Int)) (acc r : Option Int),
    minField acc xs = Except.ok r → ∃ vs : List Int, xs = vs.map some := by
  intro xs
  induction xs with
  | nil => exact fun _ _ _ => ⟨[], rfl⟩
  | cons x rest ih =>
      intro acc r h
      cases x with
      | none => simp [minField] at h
      | some v =>
          obtain ⟨vs, hvs⟩ := ih (min2 acc v) r (by simpa [minField] using h)
          exact ⟨v :: vs, by simp [hvs]⟩

/-- On a list of present values the minimum loop succeeds and computes the
min2-fold of the values. -/
theorem minField_map_some : ∀ (vs : List Int) (acc : Option Int),
    minField acc (vs.map some) = Except.ok (vs.foldl min2 acc) := by
  intro vs
  induction vs with
  | nil => intro acc; rfl
  | cons v rest ih => intro acc; simpa [minField] using ih (min2 acc v)

/-- Folding min2 from a some-accumulator always yields a value. -/
theorem foldl_min2_some (vs : List Int) : ∀ a : Int,
    ∃ m, vs.foldl min2 (some a) = some m := by
  induction vs with
  | nil => exact fun a => ⟨a, rfl⟩
  | cons v rest ih =>
      intro a
      by_cases hva : v < a
      · obtain ⟨m, hm⟩ := ih v
        exact ⟨m, by simp [min2, hva, hm]⟩
      · obtain ⟨m, hm⟩ := ih a
        exact ⟨m, by simp [min2, hva, hm]⟩

/-- The min2-fold computes the minimum: its value is the accumulator or one
of the list elements, and it bounds both from below. -/
theorem foldl_min2_spec (vs : List Int) : ∀ (acc : Option Int) (m : Int),
    vs.foldl min2 acc = some m →
    (acc = some m ∨ m ∈ vs) ∧ (∀ v ∈ vs, m ≤ v) ∧
    (∀ a : Int, acc = some a → m ≤ a) := by
  induction vs with
  | nil =>
      intro acc m h
      simp at h
      refine ⟨Or.inl h, by simp, ?_⟩
      intro a ha
      rw [h] at ha
      simp at ha
      omega
  | cons v rest ih =>
      intro acc m h
      have h2 : rest.foldl min2 (min2 acc v) = some m := by simpa using h
      obtain ⟨hmem, hle, hacc⟩ := ih (min2 acc v) m h2
      cases acc with
      | none =>
          have hmv : m ≤ v := hacc v (by simp [min2])
          refine ⟨Or.inr ?_, ?_, ?_⟩
          · rcases hmem with hw | hr
            · simp [min2] at hw
              simp [hw]
            · simp [hr]
          · intro u hu
            rcases List.mem_cons.mp hu with rfl | hu2
            · exact hmv
            · exact hle u hu2
          · intro a ha
            cases ha
      | some a =>
          by_cases hva : v < a
          · have hmin : min2 (some a) v = some v := by simp [min2, hva]
            rw [hmin] at hmem hacc
            have hmv : m ≤ v := hacc v rfl
            refine ⟨Or.inr ?_, ?_, ?_⟩
            · rcases hmem with hw | hr
              · simp at hw
                simp [hw]
              · simp [hr]
            · intro u hu
              rcases List.mem_cons.mp hu with rfl | hu2
              · exact hmv
              · exact hle u hu2
            · intro b hb
              simp at hb
              omega
          · have hmin : min2 (some a) v = some a := by simp [min2, hva]
            rw [hmin] at hmem hacc
            have hma : m ≤ a := hacc a rfl
            have hmv : m ≤ v := by omega
            refine ⟨?_, ?_, ?_⟩
            · rcases hmem with hw | hr
              · simp at hw
                exact Or.inl (by simp [hw])
              · exact Or.inr (by simp [hr])
            · intro u hu
              rcases List.mem_cons.mp hu with rfl | hu2
              · exact hmv
              · exact hle u hu2
            · intro b hb
              simp at hb
              omega

/-- Recording a client never leaves the client dict empty. -/
theorem updateClients_ne_nil (cs : List (String × ClientData))
    (client_id : String) (d : ClientData) :
    updateClients cs client_id d ≠ [] := by
  cases cs with
  | nil => simp [updateClients]
  | cons kv rest =>
      unfold updateClients
      split <;> simp

/-- A successful minimum loop started from None on a nonempty list returns
the minimum of the traversed values. -/
theorem minField_none_min (xs : List (Option Int)) (r : Option Int)
    (hne : xs ≠ []) (h : minField none xs = Except.ok r) :
    ∃ m : Int, r = some m ∧ some m ∈ xs ∧ ∀ v : Int, some v ∈ xs → m ≤ v := by
  obtain ⟨vs, rfl⟩ := minField_shape xs none r h
  have hvs : vs ≠ [] := by
    rintro rfl
    simp at hne
  rw [minField_map_some] at h
  have hr : vs.foldl min2 none = r := by
    injection h
  cases vs with
  | nil => exact absurd rfl hvs
  | cons w ws =>
      obtain ⟨m, hm⟩ := foldl_min2_some ws w
      have hfold : (w :: ws).foldl min2 none = some m := by
        simpa [min2] using hm
      obtain ⟨hmem, hle, _⟩ := foldl_min2_spec (w :: ws) none m hfold
      rcases hmem with hcontra | hmemv
      · cases hcontra
      · refine ⟨m, ?_, ?_, ?_⟩
        · rw [← hr, hfold]
        · simpa using hmemv
        · intro v hv
          exact hle v (by simpa using hv)

/-
  Claim theorems.
-/

/-- C1 counterexample: starting from INITIALIZED with a raising
start_interface hook, the state after the call is STARTED (the transition
happens at base.py line 158, before the hook runs at line 159) and nothing
propagates to the caller (the logger decorator on start catches the
error), so the claim that the state is still INITIALIZED and the error
propagates is false at this input. -/
theorem C1_start_counterexample :
    (Interface.start InterfaceState.INITIALIZED true).state =
      InterfaceState.STARTED ∧
    InterfaceState.STARTED ≠ InterfaceState.INITIALIZED ∧
    (Interface.start InterfaceState.INITIALIZED true).propagated = false :=
  ⟨rfl, by decide, rfl⟩

/-- C1 (amended): start() on an INITIALIZED interface transitions the state
to STARTED BEFORE invoking start_interface(); whether or not the hook
raises, after the call the state is STARTED; a hook error is caught and
logged by the logger decorator on start instead of propagating to the
caller of start(). -/
theorem C1_start_sets_started_before_hook (hf : Bool) :
    (Interface.start InterfaceState.INITIALIZED hf).state =
      InterfaceState.STARTED ∧
    (Interface.start InterfaceState.INITIALIZED hf).hookErrorLogged = hf ∧
    (Interface.start InterfaceState.INITIALIZED hf).propagated = false := by
  cases hf <;> exact ⟨rfl, rfl, rfl⟩

/-- C1 witness: the amended start theorem instantiated at a raising hook. -/
theorem C1_start_sets_started_witness :
    (Interface.start InterfaceState.INITIALIZED true).state =
      InterfaceState.STARTED ∧
    (Interface.start InterfaceState.INITIALIZED true).hookErrorLogged = true ∧
    (Interface.start InterfaceState.INITIALIZED true).propagated = false :=
  C1_start_sets_started_before_hook true

/-- C2 counterexample: a STARTED interface with two registered send
callbacks, of which the first in iteration order raises.  Dispatching one
byte invokes only the raiser; callback 1 is never invoked, so the claim
that a single callback failure never aborts dispatch to the remaining
callbacks is false at this input. -/
theorem C2_dispatch_counterexample :
    Interface.send_to_control
        ⟨InterfaceState.STARTED, false, [⟨0, true⟩, ⟨1, false⟩], []⟩ [72] =
      Except.ok ⟨[(0, [72])], some 0⟩ ∧
    ((1 : Nat), ([72] : List Byte)) ∉ ([(0, [72])] : List (Nat × List Byte)) :=
  ⟨rfl, by decide⟩

/-- C2 (amended): when a send callback raises, the callbacks before it in
iteration order have been invoked, the raiser itself was invoked, its
exception escapes the dispatch loop and is caught and logged once at the
method boundary by the logger decorator (so the caller sees a normal
return), and the callbacks after the raiser are NOT invoked: the exception
is not caught per-callback. -/
theorem C2_dispatch_aborts_after_raiser (i : Interface)
    (pre post : List Callback) (c : Callback) (data : List Byte)
    (hstate : i.state = InterfaceState.STARTED)
    (hcbs : i.send_callbacks = pre ++ c :: post)
    (hpre : ∀ p ∈ pre, p.raises = false)
    (hc : c.raises = true)
    (hdata : data ≠ []) :
    Interface.send_to_control i data =
      Except.ok
        ⟨(pre.map Callback.cid ++ [c.cid]).map
          (fun n => (n, if i.convertEol then convertEolBytes data else data)),
         some c.cid⟩ := by
  have hd := dispatchLoop_raiser pre post c hpre hc
  simp [Interface.send_to_control, hstate, hcbs, hd, hdata]

/-- C2 witness: the amended dispatch-abort theorem at a concrete STARTED
interface with callbacks 5 (fine), 0 (raises), 9 (fine). -/
theorem C2_dispatch_aborts_witness :
    Interface.send_to_control
        ⟨InterfaceState.STARTED, false, [⟨5, false⟩, ⟨0, true⟩, ⟨9, false⟩], []⟩
        [72] =
      Except.ok ⟨[(5, [72]), (0, [72])], some 0⟩ :=
  C2_dispatch_aborts_after_raiser
    ⟨InterfaceState.STARTED, false, [⟨5, false⟩, ⟨0, true⟩, ⟨9, false⟩], []⟩
    [⟨5, false⟩] [⟨9, false⟩] ⟨0, true⟩ [72] rfl rfl (by decide) rfl (by decide)

/-- C3: fill_missing is a no-op in the code (the loop body of context.py
lines 194-207 is a triple-quoted string, i.e. commented out), contradicting
its own docstring: on a context whose rows field is null and defaults
carrying rows = 24, fill_missing leaves rows null, while the documented
behavior (fill_missing_documented) sets it to 24. -/
theorem C3_fill_missing_noop :
    InterfaceContext.fill_missing
        ⟨[("rows", FieldVal.null), ("cols", FieldVal.intVal 80)]⟩
        [("rows", FieldVal.intVal 24), ("cols", FieldVal.intVal 80)] =
      ⟨[("rows", FieldVal.null), ("cols", FieldVal.intVal 80)]⟩ ∧
    InterfaceContext.fill_missing_documented
        ⟨[("rows", FieldVal.null), ("cols", FieldVal.intVal 80)]⟩
        [("rows", FieldVal.intVal 24), ("cols", FieldVal.intVal 80)] =
      ⟨[("rows", FieldVal.intVal 24), ("cols", FieldVal.intVal 80)]⟩ ∧
    FieldVal.null ≠ FieldVal.intVal 24 :=
  ⟨rfl, by decide, by decide⟩

/-- C4: list_interfaces consults only the entry-point environment and never
the in-process INTERFACE_REGISTRY (its signature in the embedding has no
registry argument at all, mirroring registry.py lines 26-32): after the
in-process registration of "echo" succeeds, an entry-point environment
without an "echo" entry makes list_interfaces omit it, contradicting the
claim (and the function docstring) that all registered interfaces are
returned. -/
theorem C4_list_interfaces_ignores_registry :
    register_interface [] "echo" = Except.ok ["echo"] ∧
    list_interfaces [] = [] ∧
    "echo" ∉ list_interfaces [] :=
  ⟨by rfl, rfl, by simp [list_interfaces]⟩

/-- C5 counterexample: an INITIALIZED interface with one registered receive
callback.  receive_from_control performs no state check (base.py lines
228-236): it raises nothing and dispatches the data to the callback, so the
claim that receive_from_frontend raises not-started before start and
dispatches nothing is false at this input. -/
theorem C5_receive_counterexample :
    Interface.receive_from_control
        ⟨InterfaceState.INITIALIZED, false, [], [⟨7, false⟩]⟩ [65] =
      Except.ok ⟨[(7, [65])], none⟩ := rfl

/-- C5 (amended): on an INITIALIZED interface, send_to_control raises
InterfaceNotStarted (caught and logged at the method boundary by the
logger decorator) and dispatches nothing; the base receive_from_control
performs no state check and dispatches the data to every registered
receive callback anyway; FunctionInterface.receive_from_control does check
and raises InterfaceNotStarted before any processing. -/
theorem C5_not_started_amended (i : Interface) (data : List Byte)
    (mode : CaptureMode)
    (hstate : i.state = InterfaceState.INITIALIZED)
    (hcbs : ∀ c ∈ i.receive_callbacks, c.raises = false) :
    Interface.send_to_control i data = Except.error SIOErr.notStarted ∧
    Interface.receive_from_control i data =
      Except.ok ⟨i.receive_callbacks.map (fun c => (c.cid, data)), none⟩ ∧
    FunctionInterface.receive_from_control i.state mode data =
      FnReceiveOutcome.raisedNotStarted := by
  refine ⟨?_, ?_, ?_⟩
  · simp [Interface.send_to_control, hstate]
  · simp [Interface.receive_from_control, dispatchLoop_no_raise _ hcbs]
  · simp [FunctionInterface.receive_from_control, hstate]

/-- C5 witness: the amended not-started theorem at a concrete INITIALIZED
interface with one receive callback and one data byte. -/
theorem C5_not_started_witness :
    Interface.send_to_control
        ⟨InterfaceState.INITIALIZED, false, [], [⟨7, false⟩]⟩ [66] =
      Except.error SIOErr.notStarted ∧
    Interface.receive_from_control
        ⟨InterfaceState.INITIALIZED, false, [], [⟨7, false⟩]⟩ [66] =
      Except.ok ⟨[(7, [66])], none⟩ ∧
    FunctionInterface.receive_from_control InterfaceState.INITIALIZED
        CaptureMode.ECHO [66] =
      FnReceiveOutcome.raisedNotStarted :=
  C5_not_started_amended
    ⟨InterfaceState.INITIALIZED, false, [], [⟨7, false⟩]⟩ [66]
    CaptureMode.ECHO rfl (by decide)

/-- C6 counterexample: an echo interface in STARTED state with the default
merged config (convertEol true, from EchoInterface.default_config) and one
registered send callback.  Receiving the single byte CR delivers CR LF to
the callback, which is not identical to the input, so the claim that the
delivered bytes are identical to x for every non-empty x is false at this
input. -/
theorem C6_echo_counterexample :
    EchoInterface.receive_from_control
        ⟨InterfaceState.STARTED,
         (Interface.merged_config (some EchoInterface.default_config)
            none).convertEolTruthy,
         [⟨0, false⟩], []⟩ [13] =
      Except.ok ⟨[(0, [13, 10])], none⟩ ∧
    ([13, 10] : List Byte) ≠ [13] :=
  ⟨rfl, by decide⟩

/-- C6 (amended): an echo interface in STARTED state with the default
merged config (convertEol true) and non-raising callbacks: receiving a
non-empty x invokes every registered send callback exactly once, in
iteration order, and the delivered bytes are convertEolBytes x, namely x
with every CR byte replaced by CR LF (identical to x exactly when x
contains no CR). -/
theorem C6_echo_convertEol_amended (i : Interface) (x : List Byte)
    (hstate : i.state = InterfaceState.STARTED)
    (hconv : i.convertEol =
      (Interface.merged_config (some EchoInterface.default_config)
        none).convertEolTruthy)
    (hcbs : ∀ c ∈ i.send_callbacks, c.raises = false)
    (hx : x ≠ []) :
    EchoInterface.receive_from_control i x =
      Except.ok ⟨i.send_callbacks.map (fun c => (c.cid, convertEolBytes x)),
        none⟩ := by
  have hct : (Interface.merged_config (some EchoInterface.default_config)
      none).convertEolTruthy = true := rfl
  rw [hct] at hconv
  simp [EchoInterface.receive_from_control, Interface.send_to_control,
    hstate, hconv, hx, dispatchLoop_no_raise _ hcbs]

/-- C6 witness: the amended echo theorem at a concrete STARTED echo
interface with one callback and input containing a CR. -/
theorem C6_echo_witness :
    EchoInterface.receive_from_control
        ⟨InterfaceState.STARTED, true, [⟨3, false⟩], []⟩ [72, 13] =
      Except.ok ⟨[(3, [72, 13, 10])], none⟩ :=
  C6_echo_convertEol_amended
    ⟨InterfaceState.STARTED, true, [⟨3, false⟩], []⟩ [72, 13]
    rfl rfl (by decide) (by decide)

/-- C7: the lifecycle state rank is monotone under every operation
sequence, and every single step either leaves the state unchanged, or is a
start call moving INITIALIZED to STARTED, or is a shutdown call moving
STARTED to SHUTDOWN: no operation moves the state backward. -/
theorem C7_state_monotone :
    (∀ (s : InterfaceState) (ops : List Op),
      s.rank ≤ (runOps s ops).rank) ∧
    (∀ (s : InterfaceState) (op : Op),
      stepState s op = s ∨
      (s = InterfaceState.INITIALIZED ∧
        stepState s op = InterfaceState.STARTED ∧ op.isStart = true) ∨
      (s = InterfaceState.STARTED ∧
        stepState s op = InterfaceState.SHUTDOWN ∧ op.isShutdown = true)) :=
  ⟨rank_le_runOps, stepState_characterization⟩

/-- C7 witness: state monotonicity evaluated on a concrete operation
sequence from INITIALIZED. -/
theorem C7_state_monotone_witness :
    InterfaceState.INITIALIZED.rank ≤
      (runOps InterfaceState.INITIALIZED
        [Op.start false, Op.shutdown false []]).rank :=
  C7_state_monotone.1 InterfaceState.INITIALIZED
    [Op.start false, Op.shutdown false []]

/-- C8: a successful update_terminal_metadata call (success in particular
means every recorded client carried rows and cols, else the minimum loop
would have raised KeyError) leaves the aggregate rows equal to the minimum
rows over all recorded clients, the aggregate cols equal to the minimum
cols, and invokes set_terminal_size with exactly that aggregate. -/
theorem C8_update_terminal_metadata_min (st st2 : TermAgg)
    (client_id : String) (d : ClientData)
    (h : Interface.update_terminal_metadata st client_id d = Except.ok st2) :
    (∃ r : Int, st2.rows = some r ∧
      some r ∈ st2.term_clients.map (fun kv => kv.2.rows) ∧
      ∀ v : Int, some v ∈ st2.term_clients.map (fun kv => kv.2.rows) → r ≤ v) ∧
    (∃ c : Int, st2.cols = some c ∧
      some c ∈ st2.term_clients.map (fun kv => kv.2.cols) ∧
      ∀ v : Int, some v ∈ st2.term_clients.map (fun kv => kv.2.cols) → c ≤ v) ∧
    st2.set_terminal_size_calls =
      st.set_terminal_size_calls ++ [(st2.rows, st2.cols)] := by
  simp only [Interface.update_terminal_metadata] at h
  cases hmr : minField none
      ((updateClients st.term_clients client_id d).map (fun kv => kv.2.rows)) with
  | error e =>
      rw [hmr] at h
      cases hmc : minField none
          ((updateClients st.term_clients client_id d).map (fun kv => kv.2.cols)) with
      | error e2 => rw [hmc] at h; simp at h
      | ok mc => rw [hmc] at h; simp at h
  | ok mr =>
      cases hmc : minField none
          ((updateClients st.term_clients client_id d).map (fun kv => kv.2.cols)) with
      | error e2 => rw [hmr, hmc] at h; simp at h
      | ok mc =>
          rw [hmr, hmc] at h
          simp only [Except.ok.injEq] at h
          subst h
          have hne := updateClients_ne_nil st.term_clients client_id d

          have hner : (updateClients st.term_clients client_id d).map
              (fun kv => kv.2.rows) ≠ [] := by
            simpa using hne
          have hnec : (updateClients st.term_clients client_id d).map
              (fun kv => kv.2.cols) ≠ [] := by
            simpa using hne
          obtain ⟨mr2, hr2, hrmem, hrle⟩ := minField_none_min _ _ hner hmr
          obtain ⟨mc2, hc2, hcmem, hcle⟩ := minField_none_min _ _ hnec hmc
          subst hr2
          subst hc2
          exact ⟨⟨mr2, rfl, hrmem, hrle⟩, ⟨mc2, rfl, hcmem, hcle⟩, rfl⟩

/-- C8 witness: the aggregation theorem on the concrete two-client scenario
of the spec, client a at 30 rows and 100 cols and client b at 20 rows and
120 cols, yielding aggregate rows 20 and cols 100. -/
theorem C8_update_terminal_metadata_witness :
    Interface.update_terminal_metadata
        ⟨[("a", ⟨some 30, some 100⟩)], some 30, some 100, []⟩ "b"
        ⟨some 20, some 120⟩ =
      Except.ok ⟨[("a", ⟨some 30, some 100⟩), ("b", ⟨some 20, some 120⟩)],
        some 20, some 100, [(some 20, some 100)]⟩ ∧
    ((∃ r : Int,
        (TermAgg.mk [("a", ⟨some 30, some 100⟩), ("b", ⟨some 20, some 120⟩)]
          (some 20) (some 100) [(some 20, some 100)]).rows = some r ∧
        some r ∈ (TermAgg.mk [("a", ⟨some 30, some 100⟩),
          ("b", ⟨some 20, some 120⟩)] (some 20) (some 100)
          [(some 20, some 100)]).term_clients.map (fun kv => kv.2.rows) ∧
        ∀ v : Int, some v ∈ (TermAgg.mk [("a", ⟨some 30, some 100⟩),
          ("b", ⟨some 20, some 120⟩)] (some 20) (some 100)
          [(some 20, some 100)]).term_clients.map (fun kv => kv.2.rows) →
          r ≤ v) ∧
      (∃ c : Int,
        (TermAgg.mk [("a", ⟨some 30, some 100⟩), ("b", ⟨some 20, some 120⟩)]
          (some 20) (some 100) [(some 20, some 100)]).cols = some c ∧
        some c ∈ (TermAgg.mk [("a", ⟨some 30, some 100⟩),
          ("b", ⟨some 20, some 120⟩)] (some 20) (some 100)
          [(some 20, some 100)]).term_clients.map (fun kv => kv.2.cols) ∧
        ∀ v : Int, some v ∈ (TermAgg.mk [("a", ⟨some 30, some 100⟩),
          ("b", ⟨some 20, some 120⟩)] (some 20) (some 100)
          [(some 20, some 100)]).term_clients.map (fun kv => kv.2.cols) →
          c ≤ v) ∧
      (TermAgg.mk [("a", ⟨some 30, some 100⟩), ("b", ⟨some 20, some 120⟩)]
        (some 20) (some 100) [(some 20, some 100)]).set_terminal_size_calls =
        (TermAgg.mk [("a", ⟨some 30, some 100⟩)] (some 30) (some 100)
          []).set_terminal_size_calls ++ [(some 20, some 100)]) :=
  ⟨rfl,
   C8_update_terminal_metadata_min
     ⟨[("a", ⟨some 30, some 100⟩)], some 30, some 100, []⟩
     ⟨[("a", ⟨some 30, some 100⟩), ("b", ⟨some 20, some 120⟩)],
       some 20, some 100, [(some 20, some 100)]⟩ "b" ⟨some 20, some 120⟩ rfl⟩

/-- C9: when a line feed (index) occurs with the cursor on the bottom line
of the scrolling region, the top line of the region is appended to the
scrollback list and the list is trimmed from the front: the result is the
suffix of (old scrollback ++ [top line]) obtained by dropping the oldest
entries beyond the bound (FIFO eviction), and its length never exceeds
scrollback_buffer_size. -/
theorem C9_scrollback_fifo (s : EventsScreen)
    (hcur : s.cursor_y = (s.margins.getD (0, s.lines - 1)).2) :
    (EventsScreen.index s).scrollback_buffer =
      (s.scrollback_buffer ++
        [s.buffer (s.margins.getD (0, s.lines - 1)).1]).drop
        (s.scrollback_buffer.length + 1 - s.scrollback_buffer_size) ∧
    (EventsScreen.index s).scrollback_buffer.length ≤
      s.scrollback_buffer_size := by
  have hidx : (EventsScreen.index s).scrollback_buffer =
      evictLoop (s.scrollback_buffer ++
        [s.buffer (s.margins.getD (0, s.lines - 1)).1])
        s.scrollback_buffer_size := by
    simp [EventsScreen.index, hcur]
  rw [hidx, evictLoop_eq_drop]
  constructor
  · congr 1
    simp
  · rw [List.length_drop]
    simp only [List.length_append, List.length_singleton]
    omega

/-- C9 witness: a two-line screen with default margins, cursor on the
bottom line, scrollback [7, 8] already at its bound 2: index appends the
top line (value 5) and evicts the oldest entry, leaving [8, 5] of length
2. -/
theorem C9_scrollback_witness :
    (EventsScreen.index ⟨2, none, 1, fun y => y + 5, [7, 8], 2⟩).scrollback_buffer
      = [8, 5] ∧
    (EventsScreen.index
      ⟨2, none, 1, fun y => y + 5, [7, 8], 2⟩).scrollback_buffer.length ≤ 2 :=
  ⟨(C9_scrollback_fifo ⟨2, none, 1, fun y => y + 5, [7, 8], 2⟩ rfl).1.trans rfl,
   (C9_scrollback_fifo ⟨2, none, 1, fun y => y + 5, [7, 8], 2⟩ rfl).2⟩

/-- C10: on a STARTED interface, sending the empty payload is a complete
no-op: BufferedInterface.send_to_control returns normally with the
interface state (scrollback buffer included) unchanged and no callback
invocation, and the base Interface.send_to_control likewise returns
normally having dispatched nothing. -/
theorem C10_empty_send_noop (i : BufferedInterface)
    (h : i.base.state = InterfaceState.STARTED) :
    BufferedInterface.send_to_control i [] = Except.ok (i, ⟨[], none⟩) ∧
    Interface.send_to_control i.base [] = Except.ok ⟨[], none⟩ := by
  constructor
  · simp [BufferedInterface.send_to_control, h]
  · simp [Interface.send_to_control, h]

/-- C10 witness: the empty-send theorem on a concrete STARTED buffered
interface with one callback and a nonempty scrollback buffer. -/
theorem C10_empty_send_witness :
    BufferedInterface.send_to_control
        ⟨⟨InterfaceState.STARTED, true, [⟨2, false⟩], []⟩, [1, 2, 3], 5⟩ [] =
      Except.ok
        (⟨⟨InterfaceState.STARTED, true, [⟨2, false⟩], []⟩, [1, 2, 3], 5⟩,
         ⟨[], none⟩) ∧
    Interface.send_to_control ⟨InterfaceState.STARTED, true, [⟨2, false⟩], []⟩
        [] =
      Except.ok ⟨[], none⟩ :=
  C10_empty_send_noop
    ⟨⟨InterfaceState.STARTED, true, [⟨2, false⟩], []⟩, [1, 2, 3], 5⟩ rfl

end Sioba
